import Mathlib

/-!
Verification of the PythonLabs calculator.

The development shallowly embeds the two source modules of the repository,
src/src/tokenizer.py (class Tokenizer) and src/src/calculator.py (class
Calculator), as executable Lean definitions and proves properties of them.

Modelling conventions, stated once here:

* Python strings are modelled as lists of characters (ASCII fragment: the
  character classes of the regular expressions, str.isdigit, str.isalpha
  are modelled by the ASCII predicates Char.isDigit, Char.isAlpha,
  Char.isAlphanum; no input of interest contains non-ASCII characters).
* Python numbers are a tagged union of arbitrary-precision integers and
  IEEE floats.  Integers are modelled exactly by Int.  Floats are modelled
  by exact rationals: every concrete value appearing in a theorem below is
  exactly representable and exactly computed by IEEE arithmetic, so the
  rational model agrees with CPython on those values.  Transcendental
  built-ins (sqrt, sin, ...) and powers with non-integral exponents have no
  exact rational value; the model returns a dedicated modelUnsupported
  error in those branches, which no theorem below touches.
* Python exceptions are modelled by Except with an explicit error type
  whose constructors mirror the ERROR_MESSAGES keys used by calculator.py
  and the inline raise statements.
* The mutually recursive parser methods of Calculator are modelled with an
  explicit fuel argument bounding the call depth; CPython bounds the same
  recursion by its interpreter stack.  Every theorem either supplies ample
  fuel for its concrete input or is conditioned on the result at the fuel
  used by calculate.
-/

namespace PyCalc

/-- Python strings are modelled as lists of characters. -/
abbrev Str := List Char

/-- A Python number held by the calculator: the tagged union of integers
and floats (floats modelled as exact rationals, see the file header). -/
inductive Value where
  | int (n : ℤ)
  | float (q : ℚ)
  deriving DecidableEq, Repr

/-- Numeric magnitude of a value, used where Python compares or mixes the
two numeric types (for example the equality right_operand == 0). -/
def Value.toQ : Value → ℚ
  | .int n => (n : ℚ)
  | .float q => q

/-- True exactly for integer-tagged values (Python isinstance(v, int)). -/
def Value.isInt : Value → Bool
  | .int _ => true
  | .float _ => false

/-- Python v == 0 for a numeric v: the magnitude is zero (true both for
the integer 0 and the float 0.0). -/
def isZero (v : Value) : Bool :=
  decide (v.toQ = 0)

/-- The failure kinds raised by tokenizer.py and calculator.py.  The
constructors mirror the ERROR_MESSAGES keys referenced in the source
(unexpected_end, unexpected_token, invalid_number, unknown_function,
unknown_variable, division_by_zero, integer_division_by_zero,
modulo_by_zero, invalid_identifier, unprocessed_tokens, empty_expression)
together with the inline raise statements of handle_primary_expression and
handle_multiplicative_expression, the ZeroDivisionError CPython raises for
0 ** negative, and the TypeError raised by the bound-method call
self._tokenizer.is_identifier(variable_name) in handle_assignment (the
method is declared without a self parameter, so the instance call passes
two arguments to a one-parameter function).  fuelExhausted and
modelUnsupported are artifacts of the model only (see the file header). -/
inductive CalcError where
  | emptyExpression
  | unexpectedEnd
  | unexpectedToken (expected actual : Str)
  | invalidNumber (token : Str)
  | expectedPrimaryEnd
  | expectedPrimaryGot (token : Str)
  | unknownFunction (name : Str)
  | unknownVariable (name : Str)
  | functionCallError (name : Str)
  | divisionByZero
  | integerDivisionByZero
  | moduloByZero
  | intOnlyFloorDiv
  | intOnlyMod
  | invalidIdentifier (token : Option Str)
  | unprocessedTokens
  | zeroNegativePower
  | staticCallTypeError
  | fuelExhausted
  | modelUnsupported
  deriving DecidableEq, Repr

/-! ## Tokenizer (src/src/tokenizer.py) -/

/-- Tokenizer.is_digit_token: token.replace(&#39;.&#39;, &#39;&#39;).isdigit() — remove
every decimal point, then Python str.isdigit: nonempty and all digits. -/
def is_digit_token (token : Str) : Bool :=
  let stripped := token.filter (fun c => c != '.')
  !stripped.isEmpty && stripped.all Char.isDigit

/-- Tokenizer.is_identifier: re.fullmatch of [a-zA-Z_][a-zA-Z0-9_]* . -/
def is_identifier (token : Str) : Bool :=
  match token with
  | [] => false
  | c :: rest => (c.isAlpha || c == '_') && rest.all (fun d => d.isAlphanum || d == '_')

/-- Python str.strip(): drop whitespace from both ends. -/
def pyStrip (s : Str) : Str :=
  ((s.dropWhile Char.isWhitespace).reverse.dropWhile Char.isWhitespace).reverse

/-- Continuation characters of an identifier token: [a-zA-Z0-9_]. -/
def identCont (c : Char) : Bool :=
  c.isAlphanum || c == '_'

/-- Modelled from the spec: the NUMBER alternative of TOKEN_PATTERN
(constants.py is not under src/).  The spec gives NUMBER :=
DIGIT+ (&#39;.&#39; DIGIT+)? — a greedy digit run, extended by a decimal point
only when at least one digit follows it (otherwise the optional group
fails and the match is the digit run alone, as for a Python regex). -/
def matchNumber (s : Str) : Option (Str × Str) :=
  if s.takeWhile Char.isDigit = [] then none
  else
    match s.dropWhile Char.isDigit with
    | '.' :: r1 =>
      if r1.takeWhile Char.isDigit = [] then
        some (s.takeWhile Char.isDigit, '.' :: r1)
      else
        some (s.takeWhile Char.isDigit ++ '.' :: r1.takeWhile Char.isDigit,
          r1.dropWhile Char.isDigit)
    | r => some (s.takeWhile Char.isDigit, r)

/-- Modelled from the spec: the IDENTIFIER alternative of TOKEN_PATTERN,
(ALPHA|&#39;_&#39;)(ALPHA|DIGIT|&#39;_&#39;)* with a greedy continuation run. -/
def matchIdent (s : Str) : Option (Str × Str) :=
  match s with
  | [] => none
  | c :: rest =>
    if c.isAlpha || c == '_' then
      some (c :: rest.takeWhile identCont, rest.dropWhile identCont)
    else none

/-- The single-character operator and punctuation tokens of the spec
grammar: + - * / % = ( ) , . -/
def singleChars : Str := ['+', '-', '*', '/', '%', '=', '(', ')', ',']

/-- Modelled from the spec: one attempted match of TOKEN_PATTERN at the
head of the input (constants.py is not under src/).  Alternatives are
tried in the priority order the spec states: the multi-character
operators ** and // before their single-character prefixes, then numeric
literals, then identifiers, then single punctuation and operator
characters.  Returns the matched token text and the remaining input, or
none when no alternative matches at this position. -/
def matchToken (s : Str) : Option (Str × Str) :=
  match s with
  | [] => none
  | c :: r =>
    if c = '*' ∧ r.head? = some '*' then some (['*', '*'], r.tail)
    else if c = '/' ∧ r.head? = some '/' then some (['/', '/'], r.tail)
    else if c.isDigit then matchNumber (c :: r)
    else if c.isAlpha ∨ c = '_' then matchIdent (c :: r)
    else if c ∈ singleChars then some ([c], r)
    else none

/-- One step of re.findall: emit the token matched at the current
position, or silently skip one character when nothing matches there.
The fuel argument only bounds the number of steps; findAll below always
supplies the input length, which is enough because every step consumes
at least one character (theorem matchToken_shrinks below). -/
def findAllAux : ℕ → Str → List Str
  | 0, _ => []
  | _ + 1, [] => []
  | fuel + 1, c :: rest =>
    match matchToken (c :: rest) with
    | some (t, r) => t :: findAllAux fuel r
    | none => findAllAux fuel rest

/-- re.findall(TOKEN_PATTERN, s): scan left to right, collecting
non-overlapping matches and skipping characters that match nothing. -/
def findAll (s : Str) : List Str :=
  findAllAux s.length s

/-- Tokenizer.tokenize: reject a blank expression, then remove every
space character and scan with the token pattern.  (The source also
rejects non-string arguments; the typed embedding cannot express that
call.) -/
def tokenize (expression : Str) : Except CalcError (List Str) :=
  if pyStrip expression = [] then .error .emptyExpression
  else .ok (findAll ((pyStrip expression).filter (fun c => c != ' ')))

/-! ## Value-level arithmetic of the evaluator (src/src/calculator.py)

The combining steps of handle_power_expression,
handle_multiplicative_expression, handle_additive_expression and
handle_unary_expression, with Python numeric semantics: an operation on
two integers stays integral except true division (always float) and **
with a negative exponent (float, from the int.__pow__ fallback); any
float operand makes the result a float.  Python floor division and
modulo round the quotient toward minus infinity, which is Int.fdiv and
Int.fmod here. -/

/-- Python addition on calculator values. -/
def addVal : Value → Value → Value
  | .int a, .int b => .int (a + b)
  | a, b => .float (a.toQ + b.toQ)

/-- Python subtraction on calculator values. -/
def subVal : Value → Value → Value
  | .int a, .int b => .int (a - b)
  | a, b => .float (a.toQ - b.toQ)

/-- Python multiplication on calculator values. -/
def mulVal : Value → Value → Value
  | .int a, .int b => .int (a * b)
  | a, b => .float (a.toQ * b.toQ)

/-- Python unary minus on calculator values. -/
def negVal : Value → Value
  | .int n => .int (-n)
  | .float q => .float (-q)

/-- Python true division a / b: always a float.  The evaluator checks
the divisor against zero before dividing, so this function is only
reached with a nonzero divisor. -/
def divVal (a b : Value) : Value :=
  .float (a.toQ / b.toQ)

/-- The // step of handle_multiplicative_expression: the zero check on
the right operand comes first (raising integer_division_by_zero), then
the operation is performed only when both operands are integers,
otherwise the inline type error is raised. -/
def floordivVal (a b : Value) : Except CalcError Value :=
  if isZero b then .error .integerDivisionByZero
  else
    match a, b with
    | .int x, .int y => .ok (.int (Int.fdiv x y))
    | _, _ => .error .intOnlyFloorDiv

/-- The % step of handle_multiplicative_expression: zero check first
(modulo_by_zero), then integer-only type check. -/
def modVal (a b : Value) : Except CalcError Value :=
  if isZero b then .error .moduloByZero
  else
    match a, b with
    | .int x, .int y => .ok (.int (Int.fmod x y))
    | _, _ => .error .intOnlyMod

/-- Python ** on calculator values.  Two integers with a nonnegative
exponent give an integer; a negative exponent falls back to float
(CPython raises ZeroDivisionError for 0 ** negative).  A float operand
gives a float; an exponent that is not an integer would give an
irrational result, which the rational model cannot represent, so that
branch returns the model-only modelUnsupported error (no theorem below
reaches it). -/
def powVal (a b : Value) : Except CalcError Value :=
  match a, b with
  | .int x, .int y =>
    if 0 ≤ y then .ok (.int (x ^ y.toNat))
    else if x = 0 then .error .zeroNegativePower
    else .ok (.float ((x : ℚ) ^ y))
  | a, b =>
    if (b.toQ).den = 1 then
      if a.toQ = 0 ∧ (b.toQ).num < 0 then .error .zeroNegativePower
      else .ok (.float (a.toQ ^ (b.toQ).num))
    else .error .modelUnsupported

/-- Python abs on calculator values. -/
def absVal : Value → Value
  | .int n => .int |n|
  | .float q => .float |q|

/-- One step of Python max over values: keep the later value only when
strictly greater (max returns the first maximal argument). -/
def maxVal (a b : Value) : Value :=
  if b.toQ > a.toQ then b else a

/-- One step of Python min over values. -/
def minVal (a b : Value) : Value :=
  if b.toQ < a.toQ then b else a

/-- The keys of Calculator.initialize_functions. -/
def functionNames : List Str :=
  [['a','b','s'], ['s','q','r','t'], ['p','o','w'], ['m','a','x'], ['m','i','n'],
   ['s','i','n'], ['c','o','s'], ['t','a','n'], ['l','o','g'],
   ['l','o','g','1','0'], ['e','x','p']]

/-- Invocation of a built-in with the collected arguments, mirroring
self._functions[name](*arguments) inside the try of
handle_function_call: any exception the built-in raises (wrong arity, a
negative power of zero) is wrapped into the function-call error.  abs,
pow, max and min are modelled exactly; the transcendental built-ins
(sqrt, sin, cos, tan, log, log10, exp) have irrational results outside
the rational model and return the model-only modelUnsupported error (no
theorem below calls them). -/
def applyFunction (name : Str) (args : List Value) : Except CalcError Value :=
  if name = ['a','b','s'] then
    match args with
    | [v] => .ok (absVal v)
    | _ => .error (.functionCallError name)
  else if name = ['p','o','w'] then
    match args with
    | [a, b] =>
      match powVal a b with
      | .ok v => .ok v
      | .error _ => .error (.functionCallError name)
    | _ => .error (.functionCallError name)
  else if name = ['m','a','x'] then
    match args with
    | a :: b :: rest => .ok ((b :: rest).foldl maxVal a)
    | _ => .error (.functionCallError name)
  else if name = ['m','i','n'] then
    match args with
    | a :: b :: rest => .ok ((b :: rest).foldl minVal a)
    | _ => .error (.functionCallError name)
  else .error .modelUnsupported

/-! ## The recursive-descent evaluator (src/src/calculator.py) -/

/-- The per-call parsing state of Calculator: the token list and cursor
of the current calculate call (self._tokens, self._current_position)
plus the persistent variable environment (self._variables, an
insertion-ordered mapping modelled as an association list). -/
structure St where
  tokens : List Str
  pos : ℕ
  vars : List (Str × Value)
  deriving DecidableEq, Repr

/-- Result of one parsing method: the value or the exception, together
with the state as the method left it (Python exceptions do not roll
back mutations of self). -/
abbrev Res := Except CalcError Value × St

/-- Calculator.get_current_token. -/
def get_current_token (s : St) : Option Str :=
  s.tokens[s.pos]?

/-- Calculator.consume_token: fail past the end; when an expected token
is supplied and differs from the current one, fail; otherwise return the
current token and advance the cursor. -/
def consume_token (expected : Option Str) (s : St) : Except CalcError (Str × St) :=
  match s.tokens[s.pos]? with
  | none => .error .unexpectedEnd
  | some t =>
    match expected with
    | some e => if t ≠ e then .error (.unexpectedToken e t) else .ok (t, {s with pos := s.pos + 1})
    | none => .ok (t, {s with pos := s.pos + 1})

/-- Value of a run of decimal digits. -/
def digitsToNat (ds : Str) : ℕ :=
  ds.foldl (fun acc c => 10 * acc + (c.toNat - 48)) 0

/-- The float(token) call of parse_number, on the fragment of float
literals the tokenizer can hand it: an optional digit run, one decimal
point, an optional digit run, at least one digit in total.  Anything
else (a second decimal point, a stray character) raises, as float()
does. -/
def parseFloatParts (token : Str) : Option ℚ :=
  match token.span (fun c => c != '.') with
  | (intPart, '.' :: fracPart) =>
    if intPart.all Char.isDigit && fracPart.all Char.isDigit
        && !(intPart.isEmpty && fracPart.isEmpty) && !fracPart.contains '.' then
      some ((digitsToNat intPart : ℚ) + (digitsToNat fracPart : ℚ) / (10 : ℚ) ^ fracPart.length)
    else none
  | _ => none

/-- Calculator.parse_number: a token containing a decimal point goes
through float(), any other token through int(); a conversion failure is
reported as the invalid-number error.  (int() also accepts signs and
surrounding whitespace, which no token produced by the tokenizer can
contain; the model restricts to digit strings.) -/
def parse_number (token : Str) : Except CalcError Value :=
  if token.contains '.' then
    match parseFloatParts token with
    | some q => .ok (.float q)
    | none => .error (.invalidNumber token)
  else
    if !token.isEmpty && token.all Char.isDigit then .ok (.int (digitsToNat token))
    else .error (.invalidNumber token)

/-- Lookup in the variable environment (Python dict indexing). -/
def dictGet (m : List (Str × Value)) (k : Str) : Option Value :=
  (m.find? (fun p => p.1 == k)).map (fun p => p.2)

/-- Calculator.handle_variable_reference: unknown name is an error,
otherwise the stored value. -/
def handle_variable_reference (name : Str) (vars : List (Str × Value)) :
    Except CalcError Value :=
  match dictGet vars name with
  | some v => .ok v
  | none => .error (.unknownVariable name)

mutual

/-- Calculator.handle_primary_expression: parenthesized expression,
numeric literal, or identifier (function call when immediately followed
by an opening parenthesis, else variable reference); anything else is
the inline unexpected-token error.  The digit and identifier tests are
the class-level calls Tokenizer.is_digit_token and
Tokenizer.is_identifier, which the source comment marks as the corrected
call form. -/
def handle_primary : ℕ → St → Res
  | 0, s => (.error .fuelExhausted, s)
  | fuel + 1, s =>
    match get_current_token s with
    | none => (.error .expectedPrimaryEnd, s)
    | some token =>
      if token = ['('] then
        match consume_token (some ['(']) s with
        | .error e => (.error e, s)
        | .ok (_, s1) =>
          match handle_expression fuel s1 with
          | (.ok v, s2) =>
            match consume_token (some [')']) s2 with
            | .error e => (.error e, s2)
            | .ok (_, s3) => (.ok v, s3)
          | r => r
      else if is_digit_token token then
        match consume_token none s with
        | .error e => (.error e, s)
        | .ok (t, s1) => (parse_number t, s1)
      else if is_identifier token then
        match consume_token none s with
        | .error e => (.error e, s)
        | .ok (identifier, s1) =>
          if get_current_token s1 = some ['('] then
            handle_function_call fuel identifier s1
          else
            (handle_variable_reference identifier s1.vars, s1)
      else (.error (.expectedPrimaryGot token), s)

/-- Calculator.handle_function_call: reject unknown names, consume the
opening parenthesis, parse the comma-separated argument expressions (none
when the closing parenthesis is immediate), consume the closing
parenthesis, and invoke the built-in. -/
def handle_function_call : ℕ → Str → St → Res
  | 0, _, s => (.error .fuelExhausted, s)
  | fuel + 1, name, s =>
    if ¬ functionNames.contains name then (.error (.unknownFunction name), s)
    else
      match consume_token (some ['(']) s with
      | .error e => (.error e, s)
      | .ok (_, s1) =>
        if get_current_token s1 ≠ some [')'] then
          match handle_expression fuel s1 with
          | (.error e, s2) => (.error e, s2)
          | (.ok v, s2) =>
            match parse_args fuel [v] s2 with
            | (.error e, s3) => (.error e, s3)
            | (.ok args, s3) =>
              match consume_token (some [')']) s3 with
              | .error e => (.error e, s3)
              | .ok (_, s4) => (applyFunction name args, s4)
        else
          match consume_token (some [')']) s1 with
          | .error e => (.error e, s1)
          | .ok (_, s2) => (applyFunction name [], s2)

/-- The while loop of handle_function_call collecting the remaining
comma-separated arguments. -/
def parse_args : ℕ → List Value → St → Except CalcError (List Value) × St
  | 0, _, s => (.error .fuelExhausted, s)
  | fuel + 1, acc, s =>
    if get_current_token s = some [','] then
      match consume_token (some [',']) s with
      | .error e => (.error e, s)
      | .ok (_, s1) =>
        match handle_expression fuel s1 with
        | (.error e, s2) => (.error e, s2)
        | (.ok v, s2) => parse_args fuel (acc ++ [v]) s2
    else (.ok acc, s)

/-- Calculator.handle_unary_expression: a prefix + or - applied to a
recursively parsed unary expression; otherwise fall through to the
primary level. -/
def handle_unary : ℕ → St → Res
  | 0, s => (.error .fuelExhausted, s)
  | fuel + 1, s =>
    match get_current_token s with
    | some t =>
      if t = ['+'] ∨ t = ['-'] then
        match consume_token none s with
        | .error e => (.error e, s)
        | .ok (_, s1) =>
          match handle_unary fuel s1 with
          | (.ok v, s2) => if t = ['+'] then (.ok v, s2) else (.ok (negVal v), s2)
          | r => r
      else handle_primary fuel s
    | none => handle_primary fuel s

/-- Calculator.handle_power_expression: a unary expression, optionally
followed by ** and a recursively parsed power expression (hence
right-associative). -/
def handle_power : ℕ → St → Res
  | 0, s => (.error .fuelExhausted, s)
  | fuel + 1, s =>
    match handle_unary fuel s with
    | (.error e, s1) => (.error e, s1)
    | (.ok v, s1) =>
      if get_current_token s1 = some ['*', '*'] then
        match consume_token (some ['*', '*']) s1 with
        | .error e => (.error e, s1)
        | .ok (_, s2) =>
          match handle_power fuel s2 with
          | (.ok w, s3) => (powVal v w, s3)
          | r => r
      else (.ok v, s1)

/-- The while loop of handle_multiplicative_expression, folding * / //
and % steps into the accumulated result from the left. -/
def mult_loop : ℕ → Value → St → Res
  | 0, _, s => (.error .fuelExhausted, s)
  | fuel + 1, acc, s =>
    match get_current_token s with
    | some t =>
      if t = ['*'] ∨ t = ['/'] ∨ t = ['/', '/'] ∨ t = ['%'] then
        match consume_token none s with
        | .error e => (.error e, s)
        | .ok (_, s1) =>
          match handle_power fuel s1 with
          | (.error e, s2) => (.error e, s2)
          | (.ok rhs, s2) =>
            if t = ['*'] then mult_loop fuel (mulVal acc rhs) s2
            else if t = ['/'] then
              if isZero rhs then (.error .divisionByZero, s2)
              else mult_loop fuel (divVal acc rhs) s2
            else if t = ['/', '/'] then
              match floordivVal acc rhs with
              | .ok v => mult_loop fuel v s2
              | .error e => (.error e, s2)
            else
              match modVal acc rhs with
              | .ok v => mult_loop fuel v s2
              | .error e => (.error e, s2)
      else (.ok acc, s)
    | none => (.ok acc, s)

/-- Calculator.handle_multiplicative_expression. -/
def handle_multiplicative : ℕ → St → Res
  | 0, s => (.error .fuelExhausted, s)
  | fuel + 1, s =>
    match handle_power fuel s with
    | (.error e, s1) => (.error e, s1)
    | (.ok v, s1) => mult_loop fuel v s1

/-- The while loop of handle_additive_expression. -/
def add_loop : ℕ → Value → St → Res
  | 0, _, s => (.error .fuelExhausted, s)
  | fuel + 1, acc, s =>
    match get_current_token s with
    | some t =>
      if t = ['+'] ∨ t = ['-'] then
        match consume_token none s with
        | .error e => (.error e, s)
        | .ok (_, s1) =>
          match handle_multiplicative fuel s1 with
          | (.error e, s2) => (.error e, s2)
          | (.ok rhs, s2) =>
            if t = ['+'] then add_loop fuel (addVal acc rhs) s2
            else add_loop fuel (subVal acc rhs) s2
      else (.ok acc, s)
    | none => (.ok acc, s)

/-- Calculator.handle_additive_expression. -/
def handle_additive : ℕ → St → Res
  | 0, s => (.error .fuelExhausted, s)
  | fuel + 1, s =>
    match handle_multiplicative fuel s with
    | (.error e, s1) => (.error e, s1)
    | (.ok v, s1) => add_loop fuel v s1

/-- Calculator.handle_assignment.  When the current token is the let
keyword the source consumes it, reads the prospective variable name and
then evaluates self._tokenizer.is_identifier(variable_name).  In the
source is_identifier is declared without a self parameter and this call
goes through the instance, so CPython binds the Tokenizer object to the
token parameter and the extra positional argument raises TypeError
before anything else happens (the class-level call used in
handle_primary_expression, which the source comment marks as the fix, is
not used here).  The store into self._variables below that call is
therefore unreachable and the model returns the TypeError at this point,
with the cursor already past the let token. -/
def handle_assignment : ℕ → St → Res
  | 0, s => (.error .fuelExhausted, s)
  | fuel + 1, s =>
    match get_current_token s with
    | some t =>
      if t = ['l', 'e', 't'] then
        match consume_token (some ['l', 'e', 't']) s with
        | .error e => (.error e, s)
        | .ok (_, s1) => (.error .staticCallTypeError, s1)
      else handle_additive fuel s
    | none => handle_additive fuel s

/-- Calculator.handle_expression: delegate to the assignment level. -/
def handle_expression : ℕ → St → Res
  | 0, s => (.error .fuelExhausted, s)
  | fuel + 1, s => handle_assignment fuel s

end

/-- Fuel supplied by calculate: the parsing methods recurse at most a
constant number of frames per remaining token plus a constant, so this
bound only cuts off runs that CPython would also abort by exhausting its
interpreter stack. -/
def initialFuel (tokens : List Str) : ℕ :=
  10 * tokens.length + 10

/-- The body of Calculator.calculate after tokenization: reset the
cursor, parse one expression, and fail with the unprocessed-tokens error
when the cursor has not consumed the whole token list.  The variable
environment is returned alongside in either case, as the Python instance
keeps it whatever happened. -/
def calculateTokens (vars : List (Str × Value)) (tokens : List Str) :
    Except CalcError Value × List (Str × Value) :=
  match handle_expression (initialFuel tokens) ⟨tokens, 0, vars⟩ with
  | (.ok v, s1) =>
    if s1.pos ≠ tokens.length then (.error .unprocessedTokens, s1.vars)
    else (.ok v, s1.vars)
  | (.error e, s1) => (.error e, s1.vars)

/-- Calculator.calculate: reject blank input, tokenize, parse, check
that every token was consumed.  vars is the variable environment the
Calculator instance carries into the call. -/
def calculate (vars : List (Str × Value)) (expression : Str) :
    Except CalcError Value × List (Str × Value) :=
  if pyStrip expression = [] then (.error .emptyExpression, vars)
  else
    match tokenize expression with
    | .error e => (.error e, vars)
    | .ok tokens => calculateTokens vars tokens


/-- Modelled from the spec: the sentence NUMBER := DIGIT+ (&#39;.&#39; DIGIT+)?
read off as a predicate on token text, for comparison with the source
predicate is_digit_token (claim C8): one or more digits, optionally
followed by a single decimal point and one or more digits. -/
def numberShapeSpec (t : Str) : Bool :=
  match t.dropWhile Char.isDigit with
  | [] => !t.isEmpty
  | '.' :: r1 => !(t.takeWhile Char.isDigit).isEmpty && !r1.isEmpty && r1.all Char.isDigit
  | _ => false

deriving instance DecidableEq for Except

attribute [local semireducible] Rat.add Rat.mul Rat.inv Rat.sub

/-! ## Properties of the tokenizer scan -/

theorem matchNumber_decomp {s t r0 : Str} (h : matchNumber s = some (t, r0)) :
    t ≠ [] ∧ s = t ++ r0 := by
  have hs := List.takeWhile_append_dropWhile (p := Char.isDigit) (l := s)
  unfold matchNumber at h
  split at h
  · exact absurd h (by simp)
  · rename_i hne
    split at h
    · rename_i r1 heq
      split at h
      · simp only [Option.some.injEq, Prod.mk.injEq] at h
        refine ⟨h.1 ▸ hne, ?_⟩
        rw [← h.1, ← h.2, ← heq, hs]
      · rename_i hne2
        have hr1 := List.takeWhile_append_dropWhile (p := Char.isDigit) (l := r1)
        simp only [Option.some.injEq, Prod.mk.injEq] at h
        constructor
        · intro hcontra
          rw [← h.1] at hcontra
          exact hne (List.append_eq_nil.mp hcontra).1
        · rw [← h.1, ← h.2, List.append_assoc, List.cons_append, hr1, ← heq, hs]
    · simp only [Option.some.injEq, Prod.mk.injEq] at h
      refine ⟨h.1 ▸ hne, ?_⟩
      rw [← h.1, ← h.2, hs]

theorem matchIdent_decomp {s t r0 : Str} (h : matchIdent s = some (t, r0)) :
    t ≠ [] ∧ s = t ++ r0 := by
  unfold matchIdent at h
  split at h
  · exact absurd h (by simp)
  · rename_i c rest
    split at h
    · simp only [Option.some.injEq, Prod.mk.injEq] at h
      refine ⟨by rw [← h.1]; simp, ?_⟩
      rw [← h.1, ← h.2]
      simp [List.takeWhile_append_dropWhile]
    · exact absurd h (by simp)

theorem matchToken_decomp {s t r0 : Str} (h : matchToken s = some (t, r0)) :
    t ≠ [] ∧ s = t ++ r0 := by
  unfold matchToken at h
  split at h
  · exact absurd h (by simp)
  · rename_i c r
    split at h
    · rename_i hcond
      rcases r with _ | ⟨c2, r2⟩
      · simp at hcond
      · simp only [List.head?_cons, Option.some.injEq] at hcond
        simp only [Option.some.injEq, Prod.mk.injEq] at h
        refine ⟨by rw [← h.1]; simp, ?_⟩
        rw [← h.1, ← h.2, hcond.1, hcond.2]
        rfl
    · split at h
      · rename_i hcond
        rcases r with _ | ⟨c2, r2⟩
        · simp at hcond
        · simp only [List.head?_cons, Option.some.injEq] at hcond
          simp only [Option.some.injEq, Prod.mk.injEq] at h
          refine ⟨by rw [← h.1]; simp, ?_⟩
          rw [← h.1, ← h.2, hcond.1, hcond.2]
          rfl
      · split at h
        · exact matchNumber_decomp h
        · split at h
          · exact matchIdent_decomp h
          · split at h
            · simp only [Option.some.injEq, Prod.mk.injEq] at h
              refine ⟨by rw [← h.1]; simp, ?_⟩
              rw [← h.1, ← h.2]
              rfl
            · exact absurd h (by simp)

/-- Length bound used for the fuel of the findall scan: every successful
match consumes at least one character. -/
theorem matchToken_shrinks {s t r0 : Str} (h : matchToken s = some (t, r0)) :
    r0.length < s.length := by
  obtain ⟨hne, hdec⟩ := matchToken_decomp h
  rw [hdec, List.length_append]
  rcases t with _ | ⟨a, t2⟩
  · exact absurd rfl hne
  · simp [Nat.lt_succ_iff]

/-- The text of the tokens collected by the findall scan is a subsequence
of the scanned input: every character of every token comes from the input
unaltered and in order, and only the characters matched by no token
alternative are skipped. -/
theorem findAllAux_join_sublist :
    ∀ (fuel : ℕ) (s : Str), s.length ≤ fuel → ((findAllAux fuel s).flatten).Sublist s := by
  intro fuel
  induction fuel with
  | zero => intro s _; simp [findAllAux]
  | succ n ih =>
    intro s hs
    match s with
    | [] => simp [findAllAux]
    | c :: rest =>
      rw [findAllAux]
      cases hm : matchToken (c :: rest) with
      | some tr =>
        obtain ⟨t, r⟩ := tr
        obtain ⟨hne, hdec⟩ := matchToken_decomp hm
        have hlen : r.length < (c :: rest).length := matchToken_shrinks hm
        have hr : r.length ≤ n := by
          have := hs
          simp only [List.length_cons] at this hlen ⊢
          omega
        simp only [List.flatten_cons]
        rw [hdec]
        exact List.Sublist.append (List.Sublist.refl t) (ih r hr)
      | none =>
        have hr : rest.length ≤ n := by
          simp only [List.length_cons] at hs
          omega
        exact List.Sublist.cons c (ih rest hr)

/-! ## Claims -/

/-- C8 counterexample: the token text 1.2.3 contains two decimal points,
so it is not of the shape NUMBER := DIGIT+ (&#39;.&#39; DIGIT+)?, yet
is_digit_token accepts it (replacing every dot leaves the digit string
123). -/
theorem C8_cex :
    is_digit_token ['1', '.', '2', '.', '3'] = true ∧
    numberShapeSpec ['1', '.', '2', '.', '3'] = false := by
  decide

/-- C8 (amended): is_digit_token accepts exactly the strings that contain
at least one digit and whose every character is a digit or a decimal
point — in particular it also accepts strings with several or misplaced
decimal points, such as 1.2.3, beyond the NUMBER shape of the spec. -/
theorem C8_is_digit_token_chars (t : Str) :
    is_digit_token t = true ↔
      (∃ c ∈ t, c.isDigit = true) ∧ ∀ c ∈ t, c.isDigit = true ∨ c = '.' := by
  simp only [is_digit_token, Bool.and_eq_true, Bool.not_eq_true', List.isEmpty_eq_false,
    List.all_eq_true, List.mem_filter, bne_iff_ne, ne_eq, and_imp]
  constructor
  · rintro ⟨hne, hall⟩
    rcases List.exists_mem_of_ne_nil _ hne with ⟨c, hc⟩
    obtain ⟨hcmem, hcne⟩ := List.mem_filter.mp hc
    have hcne2 : ¬ c = '.' := by simpa using hcne
    refine ⟨⟨c, hcmem, hall c hcmem hcne2⟩, ?_⟩
    intro d hdmem
    by_cases hdot : d = '.'
    · exact Or.inr hdot
    · exact Or.inl (hall d hdmem hdot)
  · rintro ⟨⟨c, hcmem, hcdig⟩, hall⟩
    constructor
    · intro hnil
      have hmem2 : c ∈ t.filter (fun c => c != '.') := by
        rw [List.mem_filter]
        refine ⟨hcmem, ?_⟩
        simp only [bne_iff_ne, ne_eq]
        intro hdot
        rw [hdot] at hcdig
        exact absurd hcdig (by decide)
      rw [hnil] at hmem2
      exact absurd hmem2 (List.not_mem_nil c)
    · intro d hdmem hddot
      rcases hall d hdmem with h | h
      · exact h
      · exact absurd h hddot

/-- C9 counterexample: tokenizing 2@+3 succeeds, but the concatenated
token text 2+3 is not the whitespace-stripped input — the unrecognized
character @ has been dropped, so the round trip is not lexically
faithful for this accepted input. -/
theorem C9_cex :
    tokenize ['2', '@', '+', '3'] = .ok [['2'], ['+'], ['3']] ∧
    ([['2'], ['+'], ['3']] : List Str).flatten ≠
      (pyStrip ['2', '@', '+', '3']).filter (fun c => c != ' ') := by
  constructor
  · rfl
  · decide

/-- C9 (amended): for every input accepted by tokenize, the concatenated
token text is a subsequence of the input with whitespace removed — no
character is altered, duplicated or reordered — but characters matching
no token alternative are silently dropped, so the concatenation equals
the despaced input only when every character of it is consumed by some
token. -/
theorem C9_token_text_sublist (e : Str) (toks : List Str)
    (h : tokenize e = .ok toks) :
    (toks.flatten).Sublist ((pyStrip e).filter (fun c => c != ' ')) := by
  unfold tokenize at h
  split at h
  · exact absurd h (by simp)
  · simp only [Except.ok.injEq] at h
    rw [← h]
    exact findAllAux_join_sublist _ _ (le_refl _)

/-- Witness for C9: the tokens of 2 + 3 reassemble to a subsequence of
the despaced input. -/
theorem C9_witness :
    (([['2'], ['+'], ['3']] : List Str).flatten).Sublist
      ((pyStrip ['2', ' ', '+', ' ', '3']).filter (fun c => c != ' ')) :=
  C9_token_text_sublist ['2', ' ', '+', ' ', '3'] [['2'], ['+'], ['3']] rfl

/-- C10: tokenize fails exactly on blank input (the non-string case is
outside the typed embedding); on every other input it succeeds, and a
character matching no token alternative is silently dropped, so 2@+3
tokenizes to the very token sequence of 2+3. -/
theorem C10_tokenize_total :
    (∀ e : Str, (∃ err, tokenize e = .error err) ↔ pyStrip e = []) ∧
    tokenize ['2', '@', '+', '3'] = tokenize ['2', '+', '3'] := by
  constructor
  · intro e
    constructor
    · rintro ⟨err, herr⟩
      by_contra hne
      unfold tokenize at herr
      rw [if_neg hne] at herr
      exact absurd herr (by simp)
    · intro h
      refine ⟨.emptyExpression, ?_⟩
      unfold tokenize
      rw [if_pos h]
  · rfl

/-- Witness for C10: a blank input is rejected. -/
theorem C10_witness : ∃ err, tokenize [' '] = .error err :=
  (C10_tokenize_total.1 [' ']).mpr (by decide)

/-- C1: evaluating let x = 5 does not store anything.  tokenize removes
every space before scanning, so the input becomes letx=5 and the
identifier alternative greedily matches letx as a single token; the
parser then treats letx as a bare variable reference and fails with the
unknown-variable error naming letx, with the assignment token = and the
literal 5 never reached and the environment left empty. -/
theorem C1_let_assignment_fails :
    calculate [] ['l', 'e', 't', ' ', 'x', ' ', '=', ' ', '5'] =
      (.error (.unknownVariable ['l', 'e', 't', 'x']), []) := rfl

/-- C7: no assignment can ever be applied to the environment.  Even when
a bare let token is produced (here by writing let(x)=5) followed by a
trailing parenthesis), handle_assignment consumes let and then calls
is_identifier through the tokenizer instance; that bound-method call
raises TypeError before the right-hand side is evaluated, so the
evaluation stops with the TypeError — not the trailing-tokens error —
and the environment is unchanged. -/
theorem C7_let_type_error :
    calculate [] ['l', 'e', 't', '(', 'x', ')', '=', '5', ')'] =
      (.error .staticCallTypeError, []) := rfl

/-- C2 counterexample: both operands of ** are integer-tagged (2, and -1
obtained by unary minus on the literal 1), yet the result is the
float-tagged 0.5 — Python int ** negative int falls back to float — so
integer-ness is not preserved by every operation other than true
division. -/
theorem C2_cex :
    powVal (.int 2) (.int (-1)) = .ok (.float (1 / 2)) ∧
    calculate [] ['2', '*', '*', '-', '1'] = (.ok (.float (1 / 2)), []) := by
  constructor
  · decide
  · decide

/-- C2 (amended): with both operands integer-tagged, addition,
subtraction, multiplication, unary minus, floor division and modulo
(when the divisor is nonzero) produce an integer-tagged result, and so
does ** when the exponent is nonnegative; with a negative exponent and a
nonzero base, ** instead produces a float-tagged result. -/
theorem C2_integer_preservation (a b : ℤ) :
    addVal (.int a) (.int b) = .int (a + b) ∧
    subVal (.int a) (.int b) = .int (a - b) ∧
    mulVal (.int a) (.int b) = .int (a * b) ∧
    negVal (.int a) = .int (-a) ∧
    (b ≠ 0 → floordivVal (.int a) (.int b) = .ok (.int (Int.fdiv a b))) ∧
    (b ≠ 0 → modVal (.int a) (.int b) = .ok (.int (Int.fmod a b))) ∧
    (0 ≤ b → powVal (.int a) (.int b) = .ok (.int (a ^ b.toNat))) ∧
    (b < 0 → a ≠ 0 → powVal (.int a) (.int b) = .ok (.float ((a : ℚ) ^ b))) := by
  have hz : ∀ c : ℤ, c ≠ 0 → isZero (.int c) = false := by
    intro c hc
    simp [isZero, Value.toQ, hc]
  refine ⟨rfl, rfl, rfl, rfl, ?_, ?_, ?_, ?_⟩
  · intro hb
    simp [floordivVal, hz b hb]
  · intro hb
    simp [modVal, hz b hb]
  · intro hb
    simp [powVal, hb]
  · intro hb ha
    simp [powVal, not_le.mpr hb, ha]

/-- Witness for C2: the guarded conjuncts at the concrete operands 7 and
3 (respectively 7 and -2 for the negative-exponent case). -/
theorem C2_witness :
    floordivVal (.int 7) (.int 3) = .ok (.int (Int.fdiv 7 3)) ∧
    modVal (.int 7) (.int 3) = .ok (.int (Int.fmod 7 3)) ∧
    powVal (.int 7) (.int 3) = .ok (.int ((7 : ℤ) ^ (3 : ℤ).toNat)) ∧
    powVal (.int 7) (.int (-2)) = .ok (.float ((7 : ℚ) ^ (-2 : ℤ))) := by
  refine ⟨(C2_integer_preservation 7 3).2.2.2.2.1 (by decide),
    (C2_integer_preservation 7 3).2.2.2.2.2.1 (by decide),
    (C2_integer_preservation 7 3).2.2.2.2.2.2.1 (by decide),
    (C2_integer_preservation 7 (-2)).2.2.2.2.2.2.2 (by decide) (by decide)⟩

/-- C3 counterexample: in 1 // 0.0 the right operand is float-tagged,
but the evaluation fails with the zero-divisor error, not with the
integers-only type error — the source checks the divisor against zero
before checking the operand types. -/
theorem C3_cex :
    calculate [] ['1', '/', '/', '0', '.', '0'] =
      (.error .integerDivisionByZero, []) := by
  decide

/-- C3 (amended): when the divisor is nonzero, // and % fail with their
integers-only type errors as soon as either operand is float-tagged,
whatever the values; when the divisor is zero the zero-divisor check
fires first and its error takes precedence over the type error. -/
theorem C3_float_operand_type_error (a b : Value) (hz : isZero b = false)
    (hf : a.isInt = false ∨ b.isInt = false) :
    floordivVal a b = .error .intOnlyFloorDiv ∧ modVal a b = .error .intOnlyMod := by
  cases a <;> cases b <;>
    simp_all [floordivVal, modVal, Value.isInt, isZero]

/-- Witness for C3: the float operand 1.5 floor-divided by or reduced
modulo the nonzero integer 2. -/
theorem C3_witness :
    floordivVal (.float (3 / 2)) (.int 2) = .error .intOnlyFloorDiv ∧
    modVal (.float (3 / 2)) (.int 2) = .error .intOnlyMod :=
  C3_float_operand_type_error (.float (3 / 2)) (.int 2) (by decide) (Or.inl (by decide))

/-- C5: the true-division step of the multiplicative level always
produces a float-tagged value, whatever the operand tags, and in
particular 4 / 2 evaluates to the float 2.0 rather than the integer 2. -/
theorem C5_true_division_float :
    (∀ a b : Value, ∃ q : ℚ, divVal a b = .float q) ∧
    calculate [] ['4', '/', '2'] = (.ok (.float 2), []) := by
  constructor
  · intro a b
    exact ⟨a.toQ / b.toQ, rfl⟩
  · decide

/-- C6: whenever parsing at the fuel calculate supplies succeeds without
consuming the whole token list, calculate reports the
unprocessed-tokens error (carrying whatever environment the parse left)
instead of returning the value of the parsed prefix. -/
theorem C6_trailing_tokens (vars : List (Str × Value)) (e : Str) (toks : List Str)
    (v : Value) (s1 : St)
    (htok : tokenize e = .ok toks)
    (hparse : handle_expression (initialFuel toks) ⟨toks, 0, vars⟩ = (.ok v, s1))
    (hrem : s1.pos ≠ toks.length) :
    calculate vars e = (.error .unprocessedTokens, s1.vars) := by
  have hstrip : ¬ pyStrip e = [] := by
    intro hcontra
    unfold tokenize at htok
    rw [if_pos hcontra] at htok
    exact absurd htok (by simp)
  unfold calculate
  rw [if_neg hstrip]
  simp only [htok]
  unfold calculateTokens
  simp only [hparse]
  rw [if_pos hrem]

/-- Witness for C6: the input 2 + 3 ) parses the complete expression
2 + 3 and then fails on the trailing parenthesis. -/
theorem C6_witness :
    calculate [] ['2', ' ', '+', ' ', '3', ' ', ')'] =
      (.error .unprocessedTokens, []) :=
  C6_trailing_tokens [] ['2', ' ', '+', ' ', '3', ' ', ')']
    [['2'], ['+'], ['3'], [')']] (.int 5) ⟨[['2'], ['+'], ['3'], [')']], 3, []⟩
    rfl rfl (by decide)

/-- A token accepted by is_digit_token contains only digits and dots, so
it is none of the operator or parenthesis tokens the parser tests first. -/
theorem is_digit_token_ne (t : Str) (h : is_digit_token t = true) :
    t ≠ ['('] ∧ t ≠ ['+'] ∧ t ≠ ['-'] := by
  refine ⟨?_, ?_, ?_⟩ <;> rintro rfl <;> exact absurd h (by decide)

/-- A primary expression at a number token consumes exactly that token
and yields its parsed value. -/
theorem handle_primary_digit (fuel : ℕ) (s : St) (t : Str) (v : Value)
    (hc : s.tokens[s.pos]? = some t) (hd : is_digit_token t = true)
    (hp : parse_number t = .ok v) :
    handle_primary (fuel + 1) s = (.ok v, {s with pos := s.pos + 1}) := by
  obtain ⟨hpar, _, _⟩ := is_digit_token_ne t hd
  rw [handle_primary]
  simp only [get_current_token, hc, consume_token]
  rw [if_neg hpar]
  simp only [hd, if_true, hp]

/-- At a number token the unary level has no sign to strip and falls
through to the primary level. -/
theorem handle_unary_digit (fuel : ℕ) (s : St) (t : Str)
    (hc : s.tokens[s.pos]? = some t) (hd : is_digit_token t = true) :
    handle_unary (fuel + 1) s = handle_primary fuel s := by
  obtain ⟨_, hplus, hminus⟩ := is_digit_token_ne t hd
  rw [handle_unary]
  simp only [get_current_token, hc]
  rw [if_neg (not_or.mpr ⟨hplus, hminus⟩)]

/-- A power expression at a number token not followed by ** consumes
exactly that token. -/
theorem handle_power_atom (fuel : ℕ) (s : St) (t : Str) (v : Value)
    (hc : s.tokens[s.pos]? = some t) (hd : is_digit_token t = true)
    (hp : parse_number t = .ok v)
    (hnext : s.tokens[s.pos + 1]? ≠ some ['*', '*']) :
    handle_power (fuel + 3) s = (.ok v, {s with pos := s.pos + 1}) := by
  rw [show fuel + 3 = (fuel + 2) + 1 from rfl, handle_power]
  rw [show fuel + 2 = (fuel + 1) + 1 from rfl]
  rw [handle_unary_digit (fuel + 1) s t hc hd]
  rw [handle_primary_digit fuel s t v hc hd hp]
  simp only [get_current_token]
  rw [if_neg hnext]

/-- A power expression at a number token followed by ** combines the
token value with the recursively parsed power expression on the right:
the combining step of handle_power_expression. -/
theorem handle_power_combine (g : ℕ) (s : St) (t : Str) (v w res : Value) (s3 : St)
    (hc : s.tokens[s.pos]? = some t) (hd : is_digit_token t = true)
    (hp : parse_number t = .ok v)
    (hnext : s.tokens[s.pos + 1]? = some ['*', '*'])
    (hrec : handle_power (g + 2) {s with pos := s.pos + 1 + 1} = (.ok w, s3))
    (hpow : powVal v w = .ok res) :
    handle_power (g + 3) s = (.ok res, s3) := by
  rw [show g + 3 = (g + 2) + 1 from rfl, handle_power]
  rw [show handle_unary (g + 2) s = handle_primary (g + 1) s from
    handle_unary_digit (g + 1) s t hc hd]
  rw [handle_primary_digit g s t v hc hd hp]
  simp only [get_current_token]
  rw [if_pos hnext]
  simp only [consume_token, hnext]
  rw [if_neg (by simp)]
  simp only [hrec, hpow]

/-- C4: the ** operator is right-associative.  For every token sequence
a ** b ** c of three number tokens (with any fuel of at least 9, any
operand values, and any environment), the power level evaluates the
right-hand b ** c first and then combines a with that result — the
result is powVal a (powVal b c), never powVal (powVal a b) c — and in
particular 2 ** 3 ** 2 evaluates to 512, not 64. -/
theorem C4_power_right_assoc :
    (∀ (n : ℕ) (ta tb tc : Str) (va vb vc w r : Value) (vars : List (Str × Value)),
      is_digit_token ta = true → is_digit_token tb = true → is_digit_token tc = true →
      parse_number ta = .ok va → parse_number tb = .ok vb → parse_number tc = .ok vc →
      powVal vb vc = .ok w → powVal va w = .ok r →
      handle_power (n + 9) ⟨[ta, ['*', '*'], tb, ['*', '*'], tc], 0, vars⟩ =
        (.ok r, ⟨[ta, ['*', '*'], tb, ['*', '*'], tc], 5, vars⟩)) ∧
    calculate [] ['2', '*', '*', '3', '*', '*', '2'] = (.ok (.int 512), []) := by
  constructor
  · intro n ta tb tc va vb vc w r vars hda hdb hdc hpa hpb hpc hpow1 hpow2
    have h3 : handle_power (n + 7) (⟨[ta, ['*', '*'], tb, ['*', '*'], tc], 4, vars⟩ : St) =
        (.ok vc, ⟨[ta, ['*', '*'], tb, ['*', '*'], tc], 5, vars⟩) :=
      handle_power_atom (n + 4) ⟨[ta, ['*', '*'], tb, ['*', '*'], tc], 4, vars⟩
        tc vc rfl hdc hpc (by simp)
    have h2 : handle_power (n + 8) (⟨[ta, ['*', '*'], tb, ['*', '*'], tc], 2, vars⟩ : St) =
        (.ok w, ⟨[ta, ['*', '*'], tb, ['*', '*'], tc], 5, vars⟩) :=
      handle_power_combine (n + 5) ⟨[ta, ['*', '*'], tb, ['*', '*'], tc], 2, vars⟩
        tb vb vc w ⟨[ta, ['*', '*'], tb, ['*', '*'], tc], 5, vars⟩ rfl hdb hpb rfl h3 hpow1
    exact handle_power_combine (n + 6) ⟨[ta, ['*', '*'], tb, ['*', '*'], tc], 0, vars⟩
      ta va w r ⟨[ta, ['*', '*'], tb, ['*', '*'], tc], 5, vars⟩ rfl hda hpa rfl h2 hpow2
  · decide

/-- Witness for C4: the general statement applied to the tokens of
2 ** 3 ** 2 gives powVal 2 (powVal 3 2) = 2 ** 9 = 512. -/
theorem C4_witness :
    handle_power 9 ⟨[['2'], ['*', '*'], ['3'], ['*', '*'], ['2']], 0, []⟩ =
      (.ok (.int 512), ⟨[['2'], ['*', '*'], ['3'], ['*', '*'], ['2']], 5, []⟩) :=
  C4_power_right_assoc.1 0 ['2'] ['3'] ['2'] (.int 2) (.int 3) (.int 2)
    (.int 9) (.int 512) [] (by decide) (by decide) (by decide) rfl rfl rfl
    (by decide) (by decide)

end PyCalc
